import Mathlib

/-!
# REC session bridge: a shallow embedding of `src/main.rs`

The program is a small OBS control panel. A spawned thread runs a
single-threaded tokio runtime driving the session loop (`main.rs` lines
18-92): it holds `obs_client : Option<Client>`, receives `Action`s from a
bounded mpsc channel of capacity 10, executes each against the remote
session, and on `LogIn` emits four inventory snapshots (`ObsInfo`) into a
second bounded channel. The egui side (`App::update`, lines 166-371) polls
one snapshot per frame, merges it into its fields, auto-logs-in on the
first frame, and sends actions from sliders and mute buttons.

Every remote call and every channel `try_send` in the source is wrapped in
`.expect(...)`, i.e. a failure panics the executing thread. We model a
panic of the driver loop with a `panicked` flag: once set, the loop
processes nothing further (the thread has unwound and its `obs_client` has
been dropped). `f32` volume values are modelled as `ℚ`; the values the
claims mention (0, 50, 100, division by 100) are exact in `f32`, so
nothing is lost for them.
-/

namespace REC

/-- `std::net::IpAddr` (v4), modelled as four octets. -/
structure IpAddr where
  a : Nat
  b : Nat
  c : Nat
  d : Nat
deriving DecidableEq, Repr

/-- The result of `"127.0.0.1:4455".parse::<SocketAddr>()` at `main.rs:206`:
the ip part. -/
def loopback : IpAddr := { a := 127, b := 0, c := 0, d := 1 }

/-- The result of `"127.0.0.1:4455".parse::<SocketAddr>()` at `main.rs:206`:
the port part. -/
def obsPort : Nat := 4455

/-- `obws::responses::inputs::Input`, restricted to the fields the program
reads (`name` and `kind`). -/
structure Input where
  name : String
  kind : String
deriving DecidableEq, Repr

/-- `obws::responses::outputs::Output`, restricted to the field the program
could read (`name`); the program only stores and forwards the list. -/
structure Output where
  name : String
deriving DecidableEq, Repr

/-- `obws::responses::scenes::Scenes`: an opaque payload the program only
stores and forwards; modelled minimally. -/
structure Scenes where
  scenes : List String
deriving DecidableEq, Repr

/-- `Scenes::default()` used in `App::new` (`main.rs:153`). -/
def defaultScenes : Scenes := { scenes := [] }

/-- `obws::responses::scene_collections::SceneCollections`: an opaque
payload the program only stores and forwards; modelled minimally. -/
structure SceneCollections where
  collections : List String
deriving DecidableEq, Repr

/-- `SceneCollections::default()` used in `App::new` (`main.rs:154`). -/
def defaultSceneCollections : SceneCollections := { collections := [] }

/-- The `Action` enum (`main.rs:104-108`). The `f32` volume is modelled
as `ℚ`. -/
inductive Action where
  | LogIn (addr : IpAddr) (port : Nat) (pass : String)
  | SetMute (name : String) (val : Bool)
  | SetVolume (name : String) (value : ℚ)
deriving DecidableEq, Repr

/-- The `ObsInfo` enum (`main.rs:110-115`): the snapshots the driver sends
back to the consumer. -/
inductive ObsInfo where
  | InputInfo (input_info : List Input)
  | OutputInfo (output_info : List Output)
  | SceneInfo (scenes : Scenes)
  | SceneCollectionInfo (scene_collections : SceneCollections)
deriving DecidableEq, Repr

/-- The remote calls the driver makes against the obws `Client`; clients
are numbered by connect attempt so that distinct connections are
distinguishable. -/
inductive RemoteCall where
  | connect (addr : IpAddr) (port : Nat) (pass : String)
  | listInputsCall (client : Nat)
  | listOutputsCall (client : Nat)
  | listScenesCall (client : Nat)
  | listSceneCollectionsCall (client : Nat)
  | setMuted (client : Nat) (name : String) (val : Bool)
  | setVolume (client : Nat) (name : String) (factor : ℚ)
deriving DecidableEq, Repr

/-- Is this remote call a mute or volume operation? -/
def isMuteOrVolumeCall : RemoteCall → Bool
  | RemoteCall.setMuted _ _ _ => true
  | RemoteCall.setVolume _ _ _ => true
  | _ => false

/-- The environment: outcomes of the fallible obws operations. `connectOk n`
decides the fate of the n-th connect attempt; the list results and the
mute/volume outcomes are per client. `Except Unit` stands for the
`Result<_, obws::Error>` of each remote call. -/
structure RemoteOracle where
  connectOk : Nat → Bool
  listInputs : Nat → Except Unit (List Input)
  listOutputs : Nat → Except Unit (List Output)
  listScenes : Nat → Except Unit Scenes
  listSceneCollections : Nat → Except Unit SceneCollections
  setMutedOk : Nat → String → Bool → Bool
  setVolumeOk : Nat → String → ℚ → Bool

/-- The driver loop's state (`main.rs:24`): `obs_client` holds the client
id of the current connection, `nextConn` counts connect attempts (to give
fresh client ids), `panicked` records that some `.expect` failed and the
thread unwound. -/
structure DriverState where
  obs_client : Option Nat
  nextConn : Nat
  panicked : Bool
deriving DecidableEq, Repr

/-- Initial driver state: `let mut obs_client: Option<Client> = None;`. -/
def initDriver : DriverState := { obs_client := none, nextConn := 0, panicked := false }

/-- Number of live connections held in a driver state between commands:
one when a client is stored and the loop is alive, zero otherwise (a panic
unwinds the async block and drops `obs_client`). -/
def connCount (s : DriverState) : Nat :=
  if s.panicked then 0 else
    match s.obs_client with
    | some _ => 1
    | none => 0

/-- Result of executing one action: next state, remote calls made,
snapshots emitted, and the peak number of simultaneously live connections
during the execution. -/
structure StepResult where
  state : DriverState
  calls : List RemoteCall
  emits : List ObsInfo
  peakLive : Nat
deriving Repr

/-- The `Action::LogIn` arm (`main.rs:45-88`): connect, then list inputs,
outputs, scenes and scene collections, send the four snapshots in that
order, and only then store the new client into `obs_client` — so during
the queries the previous client (if any) is still alive alongside the new
one. Every step is `.expect`-ed: the first failure panics the thread. -/
def execLogIn (o : RemoteOracle) (s : DriverState) (addr : IpAddr) (port : Nat)
    (pass : String) : StepResult :=
  let c := s.nextConn
  let s1 : DriverState := { s with nextConn := c + 1 }
  let cc := RemoteCall.connect addr port pass
  if o.connectOk c = false then
    -- `Client::connect(...).expect("failed to connect to obs")` panics.
    { state := { s1 with panicked := true }, calls := [cc], emits := [],
      peakLive := connCount s }
  else
    -- from here the new client is live while the old `obs_client` is still held
    let live := connCount s + 1
    match o.listInputs c with
    | Except.error _ =>
        { state := { s1 with panicked := true },
          calls := [cc, RemoteCall.listInputsCall c], emits := [], peakLive := live }
    | Except.ok input_info =>
      match o.listOutputs c with
      | Except.error _ =>
          { state := { s1 with panicked := true },
            calls := [cc, RemoteCall.listInputsCall c, RemoteCall.listOutputsCall c],
            emits := [], peakLive := live }
      | Except.ok output_info =>
        match o.listScenes c with
        | Except.error _ =>
            { state := { s1 with panicked := true },
              calls := [cc, RemoteCall.listInputsCall c, RemoteCall.listOutputsCall c,
                        RemoteCall.listScenesCall c],
              emits := [], peakLive := live }
        | Except.ok scenes =>
          match o.listSceneCollections c with
          | Except.error _ =>
              { state := { s1 with panicked := true },
                calls := [cc, RemoteCall.listInputsCall c, RemoteCall.listOutputsCall c,
                          RemoteCall.listScenesCall c, RemoteCall.listSceneCollectionsCall c],
                emits := [], peakLive := live }
          | Except.ok scene_collections =>
              { state := { s1 with obs_client := some c },
                calls := [cc, RemoteCall.listInputsCall c, RemoteCall.listOutputsCall c,
                          RemoteCall.listScenesCall c, RemoteCall.listSceneCollectionsCall c],
                emits := [ObsInfo.InputInfo input_info, ObsInfo.OutputInfo output_info,
                          ObsInfo.SceneInfo scenes,
                          ObsInfo.SceneCollectionInfo scene_collections],
                peakLive := live }

/-- One iteration of the driver loop (`main.rs:26-90`). A panicked loop
processes nothing (the thread is gone). `SetMute`/`SetVolume` only act
when `obs_client` is `Some`; their remote call is `.expect`-ed, so a
failure panics. `SetVolume` converts the percent value via `value / 100.0`
(`main.rs:39`). -/
def driverStep (o : RemoteOracle) (s : DriverState) (a : Action) : StepResult :=
  if s.panicked then { state := s, calls := [], emits := [], peakLive := connCount s }
  else
    match a with
    | Action.SetMute name val =>
        match s.obs_client with
        | none => { state := s, calls := [], emits := [], peakLive := connCount s }
        | some c =>
            if o.setMutedOk c name val then
              { state := s, calls := [RemoteCall.setMuted c name val], emits := [],
                peakLive := connCount s }
            else
              -- `.expect("failed to mute")` panics.
              { state := { s with panicked := true },
                calls := [RemoteCall.setMuted c name val], emits := [],
                peakLive := connCount s }
    | Action.SetVolume name value =>
        match s.obs_client with
        | none => { state := s, calls := [], emits := [], peakLive := connCount s }
        | some c =>
            let factor := value / 100
            if o.setVolumeOk c name factor then
              { state := s, calls := [RemoteCall.setVolume c name factor], emits := [],
                peakLive := connCount s }
            else
              -- `.expect(format!("failed to set volume for device {}", name))` panics.
              { state := { s with panicked := true },
                calls := [RemoteCall.setVolume c name factor], emits := [],
                peakLive := connCount s }
    | Action.LogIn addr port pass => execLogIn o s addr port pass

/-- Result of running the driver loop over a whole list of actions. -/
structure RunResult where
  state : DriverState
  calls : List RemoteCall
  emits : List ObsInfo
  peakLive : Nat
deriving Repr

/-- The driver loop folded over a list of received actions, accumulating
the remote-call trace, the emitted snapshots, and the peak number of
simultaneously live connections. -/
def driverRun (o : RemoteOracle) (s : DriverState) : List Action → RunResult
  | [] => { state := s, calls := [], emits := [], peakLive := connCount s }
  | a :: rest =>
      let r := driverStep o s a
      let rr := driverRun o r.state rest
      { state := rr.state, calls := r.calls ++ rr.calls, emits := r.emits ++ rr.emits,
        peakLive := max r.peakLive rr.peakLive }

/-- The session is connected exactly when the loop is alive and holds a
client (the spec's `Connected` state read off the code's representation). -/
def sessionConnected (s : DriverState) : Bool :=
  s.obs_client.isSome && s.panicked = false

/-- Is this action a `LogIn`? -/
def isLogInA : Action → Bool
  | Action.LogIn _ _ _ => true
  | _ => false

/-! ## The bounded command channel

`main.rs:16` creates `tokio::sync::mpsc::channel::<Action>(10)`. The UI
side only ever uses `try_send`, which on a full channel returns an error
without enqueueing; every call site wraps it in `.expect(...)`. -/

/-- Capacity of the action channel (`main.rs:16`). -/
def queueCapacity : Nat := 10

/-- The bounded command channel's buffer, oldest first. -/
structure CommandQueue where
  buffer : List Action
deriving DecidableEq, Repr

/-- `tokio::sync::mpsc::Sender::try_send`: enqueue and report `true` when
below capacity, otherwise leave the queue unchanged and report `false`
(the command is dropped). -/
def trySend (q : CommandQueue) (a : Action) : CommandQueue × Bool :=
  if q.buffer.length < queueCapacity then ({ buffer := q.buffer ++ [a] }, true)
  else (q, false)

/-- What the UI code actually does at each call site
(e.g. `main.rs:282-284`): `try_send(..).expect(..)` — `none` means the
`.expect` fired, panicking the render thread. -/
def submitOrPanic (q : CommandQueue) (a : Action) : Option CommandQueue :=
  let r := trySend q a
  if r.2 then some r.1 else none

/-! ## The consumer (`App` and `App::update`) -/

/-- The `App` struct (`main.rs:116-136`), minus the two channel ends. -/
structure App where
  input_info : List Input
  output_info : List Output
  scene_info : Scenes
  scene_collection_info : SceneCollections
  mic_input_name : Option String
  desktop_input_name : Option String
  mic_level : ℚ
  desktop_level : ℚ
  mic_muted : Bool
  desktop_muted : Bool
  logged_in : Bool
  addr : String
  port : String
  pass : String
deriving DecidableEq, Repr

/-- `App::new` (`main.rs:139-162`). -/
def App.new : App :=
  { input_info := [], output_info := [], scene_info := defaultScenes,
    scene_collection_info := defaultSceneCollections,
    mic_input_name := none, desktop_input_name := none,
    mic_level := 0, desktop_level := 0, mic_muted := false, desktop_muted := false,
    logged_in := false, addr := "", port := "", pass := "" }

/-- Merging one received snapshot into the app's cached inventories
(`main.rs:167-182`): the matching field is overwritten with the payload;
nothing else is touched. -/
def applyObsInfo (app : App) (info : ObsInfo) : App :=
  match info with
  | ObsInfo.InputInfo input_info => { app with input_info := input_info }
  | ObsInfo.OutputInfo output_info => { app with output_info := output_info }
  | ObsInfo.SceneInfo scenes_info => { app with scene_info := scenes_info }
  | ObsInfo.SceneCollectionInfo collection_info =>
      { app with scene_collection_info := collection_info }

/-- Does `p` occur at the start of `cs`? (chars of a pattern against chars
of a string). -/
def charsStartWith : List Char → List Char → Bool
  | [], _ => true
  | _ :: _, [] => false
  | p :: ps, c :: cs => p == c && charsStartWith ps cs

/-- Does the pattern occur anywhere inside the char list? -/
def charsHaveSub (pat : List Char) : List Char → Bool
  | [] => charsStartWith pat []
  | c :: cs => charsStartWith pat (c :: cs) || charsHaveSub pat cs

/-- Rust `str::contains` with a literal pattern, as used in
`input.kind.contains("input")` (`main.rs:227`) and `.contains("output")`
(`main.rs:253`). -/
def strContainsSub (s pat : String) : Bool := charsHaveSub pat.data s.data

/-- The options offered by the mic combo box (`main.rs:219-242`): every
input whose kind contains "input", plus the `None` ("No Mic") entry. -/
def micOptions (app : App) : List (Option String) :=
  ((app.input_info.filter (fun i => strContainsSub i.kind "input")).map
      (fun i => some i.name)) ++ [none]

/-- The options offered by the desktop combo box (`main.rs:245-268`):
every input whose kind contains "output", plus the `None` entry. -/
def desktopOptions (app : App) : List (Option String) :=
  ((app.input_info.filter (fun i => strContainsSub i.kind "output")).map
      (fun i => some i.name)) ++ [none]

/-- The operator's interactions during one frame: a combo-box click (the
chosen option), a slider drag (the new level), and mute-button clicks. -/
structure FrameInput where
  micSelect : Option (Option String)
  desktopSelect : Option (Option String)
  micDrag : Option ℚ
  desktopDrag : Option ℚ
  micMuteClick : Bool
  desktopMuteClick : Bool
deriving DecidableEq, Repr

/-- A frame with no operator interaction. -/
def idleFrame : FrameInput :=
  { micSelect := none, desktopSelect := none, micDrag := none, desktopDrag := none,
    micMuteClick := false, desktopMuteClick := false }

/-- The hardcoded auto-login block (`main.rs:205-214`): when `logged_in`
is false, set `pass` to "test1234", send `LogIn(127.0.0.1, 4455, pass)`
and set `logged_in` to true. -/
def updateLoginStep (app : App) : App × List Action :=
  if app.logged_in = false then
    ({ app with pass := "test1234", logged_in := true },
     [Action.LogIn loopback obsPort "test1234"])
  else (app, [])

/-- A mic combo-box click (`main.rs:219-242`): only options actually shown
can be clicked; clicking one stores it in `mic_input_name`. -/
def updateMicSelect (app : App) (sel : Option (Option String)) : App :=
  match sel with
  | none => app
  | some choice =>
      if (micOptions app).contains choice then { app with mic_input_name := choice }
      else app

/-- A desktop combo-box click (`main.rs:245-268`). -/
def updateDesktopSelect (app : App) (sel : Option (Option String)) : App :=
  match sel with
  | none => app
  | some choice =>
      if (desktopOptions app).contains choice then
        { app with desktop_input_name := choice }
      else app

/-- The mic volume slider (`main.rs:272-286`): a drag updates `mic_level`;
if a mic name is selected, `SetVolume(name, mic_level)` is sent. -/
def updateMicSlider (app : App) (drag : Option ℚ) : App × List Action :=
  match drag with
  | none => (app, [])
  | some v =>
      let app1 : App := { app with mic_level := v }
      match app1.mic_input_name with
      | some name => (app1, [Action.SetVolume name v])
      | none => (app1, [])

/-- The desktop volume slider (`main.rs:288-302`). -/
def updateDesktopSlider (app : App) (drag : Option ℚ) : App × List Action :=
  match drag with
  | none => (app, [])
  | some v =>
      let app1 : App := { app with desktop_level := v }
      match app1.desktop_input_name with
      | some name => (app1, [Action.SetVolume name v])
      | none => (app1, [])

/-- The mic mute button (`main.rs:304-328`): rendered only when a mic name
is selected; a click toggles `mic_muted` and sends `SetMute(name, muted)`. -/
def updateMicMute (app : App) (clicked : Bool) : App × List Action :=
  match app.mic_input_name with
  | some name =>
      if clicked then
        let muted := ! app.mic_muted
        ({ app with mic_muted := muted }, [Action.SetMute name muted])
      else (app, [])
  | none => (app, [])

/-- The desktop mute button (`main.rs:329-354`). -/
def updateDesktopMute (app : App) (clicked : Bool) : App × List Action :=
  match app.desktop_input_name with
  | some name =>
      if clicked then
        let muted := ! app.desktop_muted
        ({ app with desktop_muted := muted }, [Action.SetMute name muted])
      else (app, [])
  | none => (app, [])

/-- One call of `App::update` (`main.rs:166-371`), in source order: merge
at most one polled snapshot, run the auto-login block, then the combo
boxes, the sliders and the mute buttons. Returns the new app state and the
actions pushed into the command channel this frame. -/
def appUpdate (app : App) (snap : Option ObsInfo) (inp : FrameInput) : App × List Action :=
  let app0 := match snap with
              | some info => applyObsInfo app info
              | none => app
  let r1 := updateLoginStep app0
  let appA := updateMicSelect r1.1 inp.micSelect
  let appB := updateDesktopSelect appA inp.desktopSelect
  let r2 := updateMicSlider appB inp.micDrag
  let r3 := updateDesktopSlider r2.1 inp.desktopDrag
  let r4 := updateMicMute r3.1 inp.micMuteClick
  let r5 := updateDesktopMute r4.1 inp.desktopMuteClick
  (r5.1, r1.2 ++ r2.2 ++ r3.2 ++ r4.2 ++ r5.2)

/-- A run of the consumer: `App::update` called once per frame over a list
of (polled snapshot, operator interaction) pairs, accumulating the actions
submitted. -/
def runApp (app : App) : List (Option ObsInfo × FrameInput) → App × List Action
  | [] => (app, [])
  | f :: rest =>
      let r := appUpdate app f.1 f.2
      let rr := runApp r.1 rest
      (rr.1, r.2 ++ rr.2)

/-- The `LogIn` actions among a list of submitted actions. -/
def loginActions (l : List Action) : List Action := l.filter (fun a => isLogInA a)

/-! ## Concrete environments used to evaluate the model -/

/-- An environment in which every remote operation succeeds, with a small
fixed inventory. -/
def oracleAllOk : RemoteOracle :=
  { connectOk := fun _ => true
    listInputs := fun _ => Except.ok [{ name := "Mic", kind := "wasapi_input_capture" }]
    listOutputs := fun _ => Except.ok [{ name := "Out" }]
    listScenes := fun _ => Except.ok { scenes := ["SceneA"] }
    listSceneCollections := fun _ => Except.ok { collections := ["CollA"] }
    setMutedOk := fun _ _ _ => true
    setVolumeOk := fun _ _ _ => true }

/-- Like `oracleAllOk`, but every `set_muted` call fails. -/
def oracleMuteFails : RemoteOracle :=
  { oracleAllOk with setMutedOk := fun _ _ _ => false }

/-- Like `oracleAllOk`, but the first connect attempt fails (later ones
would succeed). -/
def oracleFirstConnectFails : RemoteOracle :=
  { oracleAllOk with connectOk := fun n => n != 0 }

/-- Like `oracleAllOk`, but every connect attempt fails. -/
def oracleNoConnect : RemoteOracle :=
  { oracleAllOk with connectOk := fun _ => false }

/-- Like `oracleAllOk`, but the inputs inventory query fails. -/
def oracleInputsQueryFails : RemoteOracle :=
  { oracleAllOk with listInputs := fun _ => Except.error () }

/-- A driver state holding client 0, as left by one successful login. -/
def stateConnected0 : DriverState :=
  { obs_client := some 0, nextConn := 1, panicked := false }

/-- An app state after a successful run-up: logged in, inventory holding
one capture input named "Mic", which is the selected mic. -/
def appWithMicSelected : App :=
  { App.new with
    logged_in := true
    mic_input_name := some "Mic"
    input_info := [{ name := "Mic", kind := "wasapi_input_capture" }] }

/-- A frame in which the operator drags the mic slider to 30. -/
def frameDragMic30 : FrameInput := { idleFrame with micDrag := some 30 }

/-- The run in which a connected driver receives a failing `SetMute`
followed by another `SetMute`. -/
def muteFailureRun : RunResult :=
  driverRun oracleMuteFails initDriver
    [Action.LogIn loopback obsPort "test1234", Action.SetMute "Mic" true,
     Action.SetMute "Mic" false]

/-- The run in which the first `LogIn` fails to connect and a second
`LogIn` (whose connect would succeed) follows. -/
def connectFailureRun : RunResult :=
  driverRun oracleFirstConnectFails initDriver
    [Action.LogIn loopback obsPort "test1234", Action.LogIn loopback obsPort "test1234"]

/-- A command channel buffer at capacity: 10 pending commands, none
drained. -/
def fullQueue : CommandQueue := { buffer := List.replicate 10 (Action.SetMute "Mic" true) }

/-- One frame of the consumer in which the selected mic "Mic" has just
vanished from the inventory (empty snapshot) and the operator drags the mic
slider. -/
def staleFrameResult : App × List Action :=
  appUpdate appWithMicSelected (some (ObsInfo.InputInfo [])) frameDragMic30

/-! ## Theorems for the claims -/

/-- Claim C1 (code evaluated at the failing input). The spec says a failed
`set_muted`/`set_volume` is reported and the session stays `Connected`. In
the code the call is wrapped in `.expect`: with a remote session whose
`set_muted` fails, after `LogIn; SetMute; SetMute` the trace stops at the
first `SetMute` (the second is never executed), the driver has panicked
and the session is no longer connected. -/
theorem setMute_failure_panics_driver :
    muteFailureRun.calls =
      [RemoteCall.connect loopback obsPort "test1234", RemoteCall.listInputsCall 0,
       RemoteCall.listOutputsCall 0, RemoteCall.listScenesCall 0,
       RemoteCall.listSceneCollectionsCall 0, RemoteCall.setMuted 0 "Mic" true] ∧
    muteFailureRun.state.panicked = true ∧
    sessionConnected muteFailureRun.state = false := by decide

/-- Claim C2 (code evaluated at the failing input). The spec says a failed
connect is reported, the driver returns to `Disconnected` and accepts a
new `LogIn`. In the code `Client::connect(..).expect(..)` panics the
driver thread: after a failing `LogIn` followed by a `LogIn` that would
succeed, only the first connect attempt appears in the trace — the second
`LogIn` is never processed and no snapshot is ever emitted. -/
theorem connect_failure_kills_driver :
    connectFailureRun.calls = [RemoteCall.connect loopback obsPort "test1234"] ∧
    connectFailureRun.state.panicked = true ∧
    connectFailureRun.emits = [] := by decide

/-- Claim C3 (code evaluated at the failing input). On a full command
queue (10 pending, none drained) `try_send` does refuse and drop the
command, but every UI call site wraps `try_send` in `.expect(..)`, so the
submission panics the render thread instead of surfacing a warning:
`submitOrPanic` returns `none` (= panic). -/
theorem full_queue_submit_panics :
    fullQueue.buffer.length = queueCapacity ∧
    trySend fullQueue (Action.SetMute "Mic" false) = (fullQueue, false) ∧
    submitOrPanic fullQueue (Action.SetMute "Mic" false) = none := by decide

/-- Claim C9 (code evaluated at the failing input). The spec says a
selection whose source vanished from the new inventory is treated as unset
on the next render and produces no further commands. In the code the
selection is kept verbatim: after a snapshot emptying the inventory, a
drag on the mic slider still sends `SetVolume` for the stale name and
`mic_input_name` still holds it (the consumer does not crash, but the
stale pointer stays live). -/
theorem stale_selection_still_sends_commands :
    staleFrameResult.1.input_info = [] ∧
    staleFrameResult.1.mic_input_name = some "Mic" ∧
    staleFrameResult.2 = [Action.SetVolume "Mic" 30] := by decide

/-! ### Helper lemmas about the driver loop -/

theorem driverStep_panicked (o : RemoteOracle) (s : DriverState) (a : Action)
    (hp : s.panicked = true) :
    driverStep o s a = { state := s, calls := [], emits := [], peakLive := connCount s } := by
  simp [driverStep, hp]

theorem driverStep_mute_no_client (o : RemoteOracle) (s : DriverState) (name : String)
    (val : Bool) (h : s.obs_client = none) :
    driverStep o s (Action.SetMute name val) =
      { state := s, calls := [], emits := [], peakLive := connCount s } := by
  by_cases hp : s.panicked = true
  · simp [driverStep, hp]
  · simp [driverStep, hp, h]

theorem driverStep_volume_no_client (o : RemoteOracle) (s : DriverState) (name : String)
    (value : ℚ) (h : s.obs_client = none) :
    driverStep o s (Action.SetVolume name value) =
      { state := s, calls := [], emits := [], peakLive := connCount s } := by
  by_cases hp : s.panicked = true
  · simp [driverStep, hp]
  · simp [driverStep, hp, h]

theorem execLogIn_connect_fail (o : RemoteOracle) (s : DriverState) (addr : IpAddr)
    (port : Nat) (pass : String) (h : o.connectOk s.nextConn = false) :
    execLogIn o s addr port pass =
      { state := { s with nextConn := s.nextConn + 1, panicked := true },
        calls := [RemoteCall.connect addr port pass], emits := [],
        peakLive := connCount s } := by
  simp [execLogIn, h]

theorem driverStep_login (o : RemoteOracle) (s : DriverState) (addr : IpAddr) (port : Nat)
    (pass : String) (hp : s.panicked = false) :
    driverStep o s (Action.LogIn addr port pass) = execLogIn o s addr port pass := by
  simp [driverStep, hp]

theorem driverRun_no_login_calls (o : RemoteOracle) :
    ∀ (acts : List Action) (s : DriverState), s.obs_client = none →
      (∀ a ∈ acts, isLogInA a = false) → (driverRun o s acts).calls = [] := by
  intro acts
  induction acts with
  | nil => intro s _ _; simp [driverRun]
  | cons a rest ih =>
      intro s hs hall
      have hrest : ∀ b ∈ rest, isLogInA b = false :=
        fun b hb => hall b (List.mem_cons_of_mem _ hb)
      cases a with
      | LogIn addr port pass =>
          have hfalse := hall _ (List.mem_cons_self _ _)
          simp [isLogInA] at hfalse
      | SetMute name val =>
          simp [driverRun, driverStep_mute_no_client o s name val hs, ih s hs hrest]
      | SetVolume name value =>
          simp [driverRun, driverStep_volume_no_client o s name value hs, ih s hs hrest]

theorem driverRun_all_connect_fail (o : RemoteOracle) (hc : ∀ n, o.connectOk n = false) :
    ∀ (acts : List Action) (s : DriverState), s.obs_client = none →
      ∀ r ∈ (driverRun o s acts).calls, isMuteOrVolumeCall r = false := by
  intro acts
  induction acts with
  | nil => intro s _ r hr; simp [driverRun] at hr
  | cons a rest ih =>
      intro s hs r hr
      by_cases hp : s.panicked = true
      · rw [driverRun, driverStep_panicked o s a hp] at hr
        simp at hr
        exact ih s hs r hr
      · cases a with
        | LogIn addr port pass =>
            have hp2 : s.panicked = false := by simpa using hp
            rw [driverRun, driverStep_login o s addr port pass hp2,
                execLogIn_connect_fail o s addr port pass (hc s.nextConn)] at hr
            simp at hr
            rcases hr with hr | hr
            · subst hr; rfl
            · exact ih { s with nextConn := s.nextConn + 1, panicked := true } hs r hr
        | SetMute name val =>
            rw [driverRun, driverStep_mute_no_client o s name val hs] at hr
            simp at hr
            exact ih s hs r hr
        | SetVolume name value =>
            rw [driverRun, driverStep_volume_no_client o s name value hs] at hr
            simp at hr
            exact ih s hs r hr

/-- Claim C4: while no login has succeeded, no remote operation happens.
First part: a run without any `LogIn` makes no remote call at all. Second
part: in a run in which every connect attempt fails (so no `LogIn` ever
succeeds), no mute or volume call ever reaches the remote session. -/
theorem no_remote_ops_before_successful_login (o : RemoteOracle) (acts : List Action) :
    ((∀ a ∈ acts, isLogInA a = false) → (driverRun o initDriver acts).calls = []) ∧
    ((∀ n, o.connectOk n = false) →
      ∀ r ∈ (driverRun o initDriver acts).calls, isMuteOrVolumeCall r = false) :=
  ⟨fun h => driverRun_no_login_calls o acts initDriver rfl h,
   fun hc => driverRun_all_connect_fail o hc acts initDriver rfl⟩

/-- Witness for C4 at concrete inputs: mute and volume commands with no
login make no remote call, and with a failing connect the only call of a
`LogIn` followed by a `SetVolume` is the connect attempt, which is not a
mute or volume operation. -/
theorem no_remote_ops_before_successful_login_witness :
    (driverRun oracleNoConnect initDriver
        [Action.SetMute "Mic" true, Action.SetVolume "Mic" 50]).calls = [] ∧
    isMuteOrVolumeCall (RemoteCall.connect loopback obsPort "test1234") = false :=
  ⟨(no_remote_ops_before_successful_login oracleNoConnect
      [Action.SetMute "Mic" true, Action.SetVolume "Mic" 50]).1 (by decide),
   (no_remote_ops_before_successful_login oracleNoConnect
      [Action.LogIn loopback obsPort "test1234", Action.SetVolume "Mic" 50]).2
     (fun _ => rfl) (RemoteCall.connect loopback obsPort "test1234") (by decide)⟩

/-- Counterexample to Claim C5 as stated: a `LogIn` whose connect succeeds
but whose inputs inventory query fails emits zero snapshots, not four (the
`.expect` on the query panics the driver before any send). -/
theorem connected_login_without_four_snapshots :
    oracleInputsQueryFails.connectOk 0 = true ∧
    (driverStep oracleInputsQueryFails initDriver
        (Action.LogIn loopback obsPort "test1234")).emits = [] ∧
    ¬ ((driverStep oracleInputsQueryFails initDriver
        (Action.LogIn loopback obsPort "test1234")).emits.length = 4) := by decide

/-- Claim C5, amended: for every `LogIn` whose connect *and four inventory
queries* succeed, the driver emits exactly four snapshots, one of each
kind, in the order inputs, outputs, scenes, scene-collections, each
payload being the corresponding list result of the remote session. -/
theorem successful_login_emits_four_snapshots (o : RemoteOracle) (s : DriverState)
    (addr : IpAddr) (port : Nat) (pass : String) (ins : List Input) (outs : List Output)
    (sc : Scenes) (scc : SceneCollections)
    (hp : s.panicked = false) (hok : o.connectOk s.nextConn = true)
    (h1 : o.listInputs s.nextConn = Except.ok ins)
    (h2 : o.listOutputs s.nextConn = Except.ok outs)
    (h3 : o.listScenes s.nextConn = Except.ok sc)
    (h4 : o.listSceneCollections s.nextConn = Except.ok scc) :
    (driverStep o s (Action.LogIn addr port pass)).emits =
      [ObsInfo.InputInfo ins, ObsInfo.OutputInfo outs, ObsInfo.SceneInfo sc,
       ObsInfo.SceneCollectionInfo scc] := by
  rw [driverStep_login o s addr port pass hp]
  simp [execLogIn, hok, h1, h2, h3, h4]

/-- Witness for the amended C5 at a concrete successful login. -/
theorem successful_login_emits_four_snapshots_witness :
    (driverStep oracleAllOk initDriver (Action.LogIn loopback obsPort "test1234")).emits =
      [ObsInfo.InputInfo [{ name := "Mic", kind := "wasapi_input_capture" }],
       ObsInfo.OutputInfo [{ name := "Out" }],
       ObsInfo.SceneInfo { scenes := ["SceneA"] },
       ObsInfo.SceneCollectionInfo { collections := ["CollA"] }] :=
  successful_login_emits_four_snapshots oracleAllOk initDriver loopback obsPort "test1234"
    [{ name := "Mic", kind := "wasapi_input_capture" }] [{ name := "Out" }]
    { scenes := ["SceneA"] } { collections := ["CollA"] } rfl rfl rfl rfl rfl rfl

/-- Claim C6: a `SetVolume(name, v)` executed against a connected session
invokes the remote volume-set with the multiplicative factor `v / 100`
(whether or not the remote call then succeeds), and at the claim's sample
points the factor is `0.5`, `0.0` and `1.0`. -/
theorem setVolume_uses_percent_factor (o : RemoteOracle) (s : DriverState) (name : String)
    (v : ℚ) (c : Nat) (hp : s.panicked = false) (hc : s.obs_client = some c) :
    (driverStep o s (Action.SetVolume name v)).calls =
      [RemoteCall.setVolume c name (v / 100)] ∧
    (50 : ℚ) / 100 = 1 / 2 ∧ (0 : ℚ) / 100 = 0 ∧ (100 : ℚ) / 100 = 1 := by
  refine ⟨?_, by norm_num, by norm_num, by norm_num⟩
  by_cases h : o.setVolumeOk c name (v / 100) = true
  · simp [driverStep, hp, hc, h]
  · simp [driverStep, hp, hc, h]

/-- Witness for C6 at `SetVolume("Mic", 50)` on a connected session. -/
theorem setVolume_uses_percent_factor_witness :
    (driverStep oracleAllOk stateConnected0 (Action.SetVolume "Mic" 50)).calls =
      [RemoteCall.setVolume 0 "Mic" ((50 : ℚ) / 100)] ∧
    (50 : ℚ) / 100 = 1 / 2 ∧ (0 : ℚ) / 100 = 0 ∧ (100 : ℚ) / 100 = 1 :=
  setVolume_uses_percent_factor oracleAllOk stateConnected0 "Mic" 50 0 rfl rfl

/-- Claim C7: merging a received snapshot of kind K replaces the cached
inventory of kind K wholesale and leaves every other field of the app —
the other three inventories, the selected names, the levels and the mute
flags — unchanged (`{ app with ... }` updates exactly one field). -/
theorem snapshot_replaces_inventory_wholesale (app : App) (ins : List Input)
    (outs : List Output) (sc : Scenes) (scc : SceneCollections) :
    applyObsInfo app (ObsInfo.InputInfo ins) = { app with input_info := ins } ∧
    applyObsInfo app (ObsInfo.OutputInfo outs) = { app with output_info := outs } ∧
    applyObsInfo app (ObsInfo.SceneInfo sc) = { app with scene_info := sc } ∧
    applyObsInfo app (ObsInfo.SceneCollectionInfo scc) =
      { app with scene_collection_info := scc } :=
  ⟨rfl, rfl, rfl, rfl⟩

/-- Counterexample to Claim C8 as stated: with every remote operation
succeeding, during the second of two `LogIn` commands the driver holds the
previous client while the newly connected one performs its inventory
queries, so two live connections exist simultaneously. -/
theorem second_login_two_live_connections :
    (driverRun oracleAllOk initDriver
        [Action.LogIn loopback obsPort "test1234",
         Action.LogIn loopback obsPort "test1234"]).peakLive = 2 ∧
    ¬ ((driverRun oracleAllOk initDriver
        [Action.LogIn loopback obsPort "test1234",
         Action.LogIn loopback obsPort "test1234"]).peakLive ≤ 1) := by decide

/-- Claim C8, amended: between commands the driver holds at most one
connection, and a second successful `LogIn` while connected replaces the
stored session (it is not rejected); but while the second login's
inventory queries are in flight the old and the new connection are both
live, so momentarily two connections exist. -/
theorem second_login_replaces_session (o : RemoteOracle) (s : DriverState) (addr : IpAddr)
    (port : Nat) (pass : String) (c : Nat) (ins : List Input) (outs : List Output)
    (sc : Scenes) (scc : SceneCollections)
    (hp : s.panicked = false) (hcl : s.obs_client = some c)
    (hok : o.connectOk s.nextConn = true)
    (h1 : o.listInputs s.nextConn = Except.ok ins)
    (h2 : o.listOutputs s.nextConn = Except.ok outs)
    (h3 : o.listScenes s.nextConn = Except.ok sc)
    (h4 : o.listSceneCollections s.nextConn = Except.ok scc) :
    (driverStep o s (Action.LogIn addr port pass)).state.obs_client = some s.nextConn ∧
    connCount (driverStep o s (Action.LogIn addr port pass)).state = 1 ∧
    (driverStep o s (Action.LogIn addr port pass)).peakLive = 2 := by
  rw [driverStep_login o s addr port pass hp]
  simp [execLogIn, connCount, hp, hcl, hok, h1, h2, h3, h4]

/-- Witness for the amended C8: a second login over `stateConnected0`
installs client 1, leaves one connection between commands, and peaks at
two live connections during the queries. -/
theorem second_login_replaces_session_witness :
    (driverStep oracleAllOk stateConnected0
        (Action.LogIn loopback obsPort "test1234")).state.obs_client = some 1 ∧
    connCount (driverStep oracleAllOk stateConnected0
        (Action.LogIn loopback obsPort "test1234")).state = 1 ∧
    (driverStep oracleAllOk stateConnected0
        (Action.LogIn loopback obsPort "test1234")).peakLive = 2 :=
  second_login_replaces_session oracleAllOk stateConnected0 loopback obsPort "test1234" 0
    [{ name := "Mic", kind := "wasapi_input_capture" }] [{ name := "Out" }]
    { scenes := ["SceneA"] } { collections := ["CollA"] } rfl rfl rfl rfl rfl rfl rfl

/-! ### Helper lemmas about the consumer frame -/

@[simp] theorem loginActions_nil : loginActions [] = [] := rfl

@[simp] theorem loginActions_append (l1 l2 : List Action) :
    loginActions (l1 ++ l2) = loginActions l1 ++ loginActions l2 := by
  simp [loginActions]

@[simp] theorem applyObsInfo_logged_in (app : App) (info : ObsInfo) :
    (applyObsInfo app info).logged_in = app.logged_in := by
  cases info <;> rfl

@[simp] theorem updateMicSelect_logged_in (app : App) (sel : Option (Option String)) :
    (updateMicSelect app sel).logged_in = app.logged_in := by
  cases sel with
  | none => rfl
  | some choice =>
      simp only [updateMicSelect]
      split <;> rfl

@[simp] theorem updateDesktopSelect_logged_in (app : App) (sel : Option (Option String)) :
    (updateDesktopSelect app sel).logged_in = app.logged_in := by
  cases sel with
  | none => rfl
  | some choice =>
      simp only [updateDesktopSelect]
      split <;> rfl

@[simp] theorem updateMicSlider_logged_in (app : App) (d : Option ℚ) :
    (updateMicSlider app d).1.logged_in = app.logged_in := by
  cases d with
  | none => rfl
  | some v => cases h : app.mic_input_name <;> simp [updateMicSlider, h]

@[simp] theorem updateDesktopSlider_logged_in (app : App) (d : Option ℚ) :
    (updateDesktopSlider app d).1.logged_in = app.logged_in := by
  cases d with
  | none => rfl
  | some v => cases h : app.desktop_input_name <;> simp [updateDesktopSlider, h]

@[simp] theorem updateMicMute_logged_in (app : App) (clicked : Bool) :
    (updateMicMute app clicked).1.logged_in = app.logged_in := by
  cases h : app.mic_input_name with
  | none => simp [updateMicMute, h]
  | some name => by_cases hc : clicked = true <;> simp [updateMicMute, h, hc]

@[simp] theorem updateDesktopMute_logged_in (app : App) (clicked : Bool) :
    (updateDesktopMute app clicked).1.logged_in = app.logged_in := by
  cases h : app.desktop_input_name with
  | none => simp [updateDesktopMute, h]
  | some name => by_cases hc : clicked = true <;> simp [updateDesktopMute, h, hc]

@[simp] theorem loginActions_micSlider (app : App) (d : Option ℚ) :
    loginActions (updateMicSlider app d).2 = [] := by
  cases d with
  | none => rfl
  | some v =>
      cases h : app.mic_input_name <;> simp [updateMicSlider, h, loginActions, isLogInA]

@[simp] theorem loginActions_desktopSlider (app : App) (d : Option ℚ) :
    loginActions (updateDesktopSlider app d).2 = [] := by
  cases d with
  | none => rfl
  | some v =>
      cases h : app.desktop_input_name <;>
        simp [updateDesktopSlider, h, loginActions, isLogInA]

@[simp] theorem loginActions_micMute (app : App) (clicked : Bool) :
    loginActions (updateMicMute app clicked).2 = [] := by
  cases h : app.mic_input_name with
  | none => simp [updateMicMute, h, loginActions]
  | some name =>
      by_cases hc : clicked = true <;>
        simp [updateMicMute, h, hc, loginActions, isLogInA]

@[simp] theorem loginActions_desktopMute (app : App) (clicked : Bool) :
    loginActions (updateDesktopMute app clicked).2 = [] := by
  cases h : app.desktop_input_name with
  | none => simp [updateDesktopMute, h, loginActions]
  | some name =>
      by_cases hc : clicked = true <;>
        simp [updateDesktopMute, h, hc, loginActions, isLogInA]

@[simp] theorem loginActions_login_singleton (addr : IpAddr) (port : Nat) (pass : String) :
    loginActions [Action.LogIn addr port pass] = [Action.LogIn addr port pass] := rfl

@[simp] theorem loginActions_cons_login (addr : IpAddr) (port : Nat) (pass : String)
    (l : List Action) :
    loginActions (Action.LogIn addr port pass :: l) =
      Action.LogIn addr port pass :: loginActions l := by
  simp [loginActions, isLogInA]

theorem updateLoginStep_done (app : App) (h : app.logged_in = true) :
    updateLoginStep app = (app, []) := by
  simp [updateLoginStep, h]

theorem updateLoginStep_first (app : App) (h : app.logged_in = false) :
    updateLoginStep app =
      ({ app with pass := "test1234", logged_in := true },
       [Action.LogIn loopback obsPort "test1234"]) := by
  simp [updateLoginStep, h]

theorem appUpdate_logged_in_stays (app : App) (snap : Option ObsInfo) (inp : FrameInput)
    (h : app.logged_in = true) :
    loginActions (appUpdate app snap inp).2 = [] ∧
    (appUpdate app snap inp).1.logged_in = true := by
  cases snap with
  | none => simp [appUpdate, updateLoginStep_done app h, h]
  | some info =>
      have h0 : (applyObsInfo app info).logged_in = true := by
        rw [applyObsInfo_logged_in]; exact h
      simp [appUpdate, updateLoginStep_done _ h0, h]

theorem appUpdate_first_frame (app : App) (snap : Option ObsInfo) (inp : FrameInput)
    (h : app.logged_in = false) :
    loginActions (appUpdate app snap inp).2 = [Action.LogIn loopback obsPort "test1234"] ∧
    (appUpdate app snap inp).1.logged_in = true := by
  cases snap with
  | none => simp [appUpdate, updateLoginStep_first app h]
  | some info =>
      have h0 : (applyObsInfo app info).logged_in = false := by
        rw [applyObsInfo_logged_in]; exact h
      simp [appUpdate, updateLoginStep_first _ h0]

theorem runApp_logged_in_stays (frames : List (Option ObsInfo × FrameInput)) :
    ∀ app : App, app.logged_in = true →
      loginActions (runApp app frames).2 = [] ∧ (runApp app frames).1.logged_in = true := by
  induction frames with
  | nil => intro app h; exact ⟨rfl, h⟩
  | cons f rest ih =>
      intro app h
      have h1 := appUpdate_logged_in_stays app f.1 f.2 h
      have h2 := ih (appUpdate app f.1 f.2).1 h1.2
      exact ⟨by simp [runApp, h1.1, h2.1], by simp [runApp, h2.2]⟩

/-- Claim C10: starting from a fresh `App` (first frame of a run, with
`logged_in` false), any nonempty run of frames submits exactly one `LogIn`
action, namely the hard-coded `LogIn(127.0.0.1, 4455, "test1234")`, and
the flag `logged_in` ends (and stays) true — so at most one automatic
login is submitted per run, with no operator-entered parameters. -/
theorem auto_login_once_per_run (frames : List (Option ObsInfo × FrameInput))
    (h : frames ≠ []) :
    loginActions (runApp App.new frames).2 = [Action.LogIn loopback obsPort "test1234"] ∧
    (runApp App.new frames).1.logged_in = true := by
  cases frames with
  | nil => exact absurd rfl h
  | cons f rest =>
      have h1 := appUpdate_first_frame App.new f.1 f.2 rfl
      have h2 := runApp_logged_in_stays rest (appUpdate App.new f.1 f.2).1 h1.2
      exact ⟨by simp [runApp, h1.1, h2.1], by simp [runApp, h2.2]⟩

/-- Witness for C10: a single idle frame from a fresh app submits exactly
the hard-coded login and sets the flag. -/
theorem auto_login_once_per_run_witness :
    loginActions (runApp App.new [(none, idleFrame)]).2 =
      [Action.LogIn loopback obsPort "test1234"] ∧
    (runApp App.new [(none, idleFrame)]).1.logged_in = true :=
  auto_login_once_per_run [(none, idleFrame)] (by simp)

end REC
